import Mathlib

/-!
# Shallow embedding of `Mahanadi_Flood_Inundation.js`

The repository is a single Google Earth Engine (GEE) script.  We embed the
script's pipeline over an abstract raster grid: a raster sampled at the fixed
30 m scale over the AOI is modelled as a function from grid cells (`Fin n ×
Fin m`) to optional rational values — `none` is a masked (no-data) pixel,
`some v` an unmasked pixel holding value `v`.

GEE operations used by the script are embedded with their documented
semantics:
* `Image.lt` / `Image.gt` map each unmasked pixel to `1` when the comparison
  holds and `0` otherwise, keeping masked pixels masked;
* `Image.and` yields `1` iff both operands are non-zero, and is masked where
  either operand is masked;
* `Image.updateMask` masks every pixel where the mask image is `0` or itself
  masked; `selfMask` is `updateMask` with the image itself;
* `ImageCollection.sum` sums the unmasked values per pixel and leaves a pixel
  masked only when every input is masked there;
* `ImageCollection.mosaic` takes, per pixel, the value of the last image in
  the collection that is unmasked there;
* `reduceRegion` with a sum reducer adds up the unmasked pixel values inside
  the geometry and produces a dictionary entry that is null (`none`) when no
  unmasked pixel falls in the region;
* `ee.Number.or` is the *logical* OR of GEE: it returns `1` iff either
  operand is non-zero, and it is an evaluation error (modelled as `none`)
  when its left operand is null — it is not a null-coalescing default;
* `reduceToVectors` groups 8-connected regions of equal-valued unmasked
  pixels into one polygon feature each, labelled with the region's value
  under the requested label property.
-/

/-- A grid cell of the raster sampled over the AOI at the script's fixed
30 m scale: row index in `Fin n`, column index in `Fin m`. -/
abbrev Pix (n m : ℕ) := Fin n × Fin m

/-- A single-band raster image over the grid: `none` at masked pixels,
`some v` at unmasked pixels carrying value `v`. -/
def EEImage (n m : ℕ) := Pix n m → Option ℚ

namespace EEImage

variable {n m : ℕ}

/-- GEE `image.lt(t)`: per unmasked pixel, `1` if the value is below `t`,
else `0`; masked pixels stay masked. -/
def lt (img : EEImage n m) (t : ℚ) : EEImage n m :=
  fun p => (img p).map (fun v => if v < t then 1 else 0)

/-- GEE `image.gt(t)`: per unmasked pixel, `1` if the value exceeds `t`,
else `0`; masked pixels stay masked. -/
def gt (img : EEImage n m) (t : ℚ) : EEImage n m :=
  fun p => (img p).map (fun v => if t < v then 1 else 0)

/-- GEE `a.and(b)`: `1` iff both pixel values are non-zero, `0` otherwise;
masked wherever either input is masked. -/
def and (a b : EEImage n m) : EEImage n m :=
  fun p =>
    match a p, b p with
    | some x, some y => some (if x ≠ 0 ∧ y ≠ 0 then 1 else 0)
    | _, _ => none

/-- GEE `img.updateMask(mask)`: keep a pixel of `img` only where `mask` is
unmasked and non-zero. -/
def updateMask (img mask : EEImage n m) : EEImage n m :=
  fun p =>
    match mask p with
    | some mv => if mv ≠ 0 then img p else none
    | none => none

/-- GEE `img.selfMask()`: mask out the zero-valued pixels of `img`. -/
def selfMask (img : EEImage n m) : EEImage n m :=
  updateMask img img

/-- GEE `img.divide(c)` with a constant: pixelwise division. -/
def divide (img : EEImage n m) (c : ℚ) : EEImage n m :=
  fun p => (img p).map (fun v => v / c)

/-- GEE `img.toByte()`: cast to an unsigned 8-bit integer — the value is
truncated to an integer and clamped to `[0, 255]`. -/
def toByteVal (v : ℚ) : ℚ :=
  ((max 0 (min 255 ⌊v⌋) : ℤ) : ℚ)

/-- GEE `img.toByte()` applied pixelwise; masked pixels stay masked. -/
def toByte (img : EEImage n m) : EEImage n m :=
  fun p => (img p).map toByteVal

/-- GEE `img.clip(aoi)`: mask every pixel outside the geometry.  The AOI
polygon is modelled by its rasterization `aoi : Pix n m → Bool` on the
sampling grid. -/
def clip (img : EEImage n m) (aoi : Pix n m → Bool) : EEImage n m :=
  fun p => if aoi p then img p else none

end EEImage

/-- Line 39, `var heavyRain = rain.gt(200).rename('HeavyRain');` — the
heavy-rainfall mask (the rename only sets the band name, which our
single-band raster model does not carry). -/
def heavyRain {n m : ℕ} (rain : EEImage n m) : EEImage n m :=
  rain.gt 200

/-- Line 43, `var floodRisk = dem.lt(50).and(heavyRain).rename('FloodRisk');`
— the flood-risk mask. -/
def floodRisk {n m : ℕ} (dem rain : EEImage n m) : EEImage n m :=
  (dem.lt 50).and (heavyRain rain)

section PointwiseFacts

variable {n m : ℕ}

/-- Helper: at any unmasked pixel the flood-risk mask holds `0` or `1`. -/
theorem floodRisk_val_cases (dem rain : EEImage n m) (p : Pix n m) (v : ℚ)
    (h : floodRisk dem rain p = some v) : v = 0 ∨ v = 1 := by
  unfold floodRisk heavyRain EEImage.and EEImage.lt EEImage.gt at h
  rcases hd : dem p with _ | e <;> rcases hr : rain p with _ | r <;>
    simp [hd, hr] at h
  split at h <;> simp_all

/-- Helper: the flood-risk mask is `some 1` at a pixel iff the elevation and
accumulated-rainfall values are present there and satisfy `e < 50 ∧ 200 < r`. -/
theorem floodRisk_eq_one_iff (dem rain : EEImage n m) (p : Pix n m)
    (e r : ℚ) (he : dem p = some e) (hr : rain p = some r) :
    floodRisk dem rain p = some 1 ↔ (e < 50 ∧ 200 < r) := by
  unfold floodRisk heavyRain EEImage.and EEImage.lt EEImage.gt
  by_cases h1 : e < 50 <;> by_cases h2 : 200 < r <;>
    simp [he, hr, h1, h2]

end PointwiseFacts

/-! ## Image collections, date filtering and temporal reduction

The CHIRPS rainfall collection (lines 21–26) and the Sentinel-1 collection
(lines 29–36) are modelled as lists of dated images carrying the metadata the
script filters on.  Dates are ISO-8601 strings, whose lexicographic order is
chronological order; `filterDate(a, b)` keeps items with `a ≤ date < b`
(GEE's start-inclusive, end-exclusive convention).  `filterBounds(aoi)` keeps
the items whose footprint intersects the AOI, recorded here as a boolean
flag per item. -/

/-- Lexicographic comparison of character lists, the order underlying
ISO-8601 date-string comparison. -/
def charsLT : List Char → List Char → Bool
  | [], [] => false
  | [], _ :: _ => true
  | _ :: _, [] => false
  | a :: as, b :: bs =>
    if a.toNat < b.toNat then true
    else if b.toNat < a.toNat then false
    else charsLT as bs

/-- Strict chronological order of ISO-8601 date strings (their lexicographic
order). -/
def dateLT (a b : String) : Bool := charsLT a.data b.data

/-- Non-strict chronological order of ISO-8601 date strings. -/
def dateLE (a b : String) : Bool := !dateLT b a

/-- One daily CHIRPS rainfall image with the metadata the script filters on. -/
structure RainItem (n m : ℕ) where
  date : String
  intersectsAoi : Bool
  img : EEImage n m

/-- One Sentinel-1 GRD scene with the metadata the script filters on; a scene
carries several named bands (VV, VH, ...). -/
structure S1Item (n m : ℕ) where
  date : String
  intersectsAoi : Bool
  instrumentMode : String
  bands : List (String × EEImage n m)

/-- GEE `ImageCollection.sum()`: per pixel, the sum of the unmasked values of
the collection; the pixel stays masked only when every image is masked
there. -/
def collectionSum {n m : ℕ} (imgs : List (EEImage n m)) : EEImage n m :=
  fun p =>
    let vals := imgs.filterMap (fun i => i p)
    if vals.isEmpty then none else some vals.sum

/-- GEE `ImageCollection.mosaic()`: per pixel, the value of the last image in
the collection that is unmasked there. -/
def mosaic {n m : ℕ} (imgs : List (EEImage n m)) : EEImage n m :=
  fun p => (imgs.reverse.filterMap (fun i => i p)).head?

/-- Lines 21–26: the accumulated July-2022 rainfall raster
`rain = CHIRPS.filterBounds(aoi).filterDate('2022-07-01','2022-07-31').sum().clip(aoi)`. -/
def rainPipeline {n m : ℕ} (chirps : List (RainItem n m))
    (aoi : Pix n m → Bool) : EEImage n m :=
  (collectionSum
    (((chirps.filter (fun x => x.intersectsAoi)).filter
        (fun x => dateLE "2022-07-01" x.date && dateLT x.date "2022-07-31")).map
      (fun x => x.img))).clip aoi

/-- Lines 29–36: the Sentinel-1 visual-reference mosaic
`s1 = S1_GRD.filterBounds(aoi).filterDate(...).filter(mode=='IW').select('VV').mosaic().clip(aoi)`.
`select('VV')` extracts the VV band of each scene. -/
def s1Pipeline {n m : ℕ} (scenes : List (S1Item n m))
    (aoi : Pix n m → Bool) : EEImage n m :=
  (mosaic
    ((((scenes.filter (fun x => x.intersectsAoi)).filter
          (fun x => dateLE "2022-07-01" x.date && dateLT x.date "2022-07-31")).filter
        (fun x => x.instrumentMode == "IW")).filterMap
      (fun x => x.bands.lookup "VV"))).clip aoi

/-! ## Region reduction and the flood-area scalar -/

/-- GEE `img.reduceRegion({reducer: sum, geometry, ...})`: the sum of the
unmasked pixel values inside the geometry; `none` (a null dictionary entry)
when no unmasked pixel falls in the region.  The script's fixed `scale: 30`
is the grid's sampling scale and `maxPixels: 1e13` is a server-side budget
with no effect on the value. -/
def reduceRegionSum {n m : ℕ} (img : EEImage n m) (geom : Pix n m → Bool) :
    Option ℚ :=
  let cells := Finset.univ.filter (fun p : Pix n m => geom p ∧ (img p).isSome)
  if cells = ∅ then none else some (∑ p ∈ cells, (img p).getD 0)

/-- GEE `ee.Number.or`: the logical OR of two numbers — `1` iff either input
value is non-zero (it is not a null-coalescing operation). -/
def eeNumberOr (a b : ℚ) : ℚ :=
  if a ≠ 0 ∨ b ≠ 0 then 1 else 0

/-- GEE `ee.Number(x).or(b)` where `x` came from a dictionary lookup and may
be null: `Number.or` requires a non-null left operand, so a null input makes
the evaluation fail rather than produce a number (modelled as `none`). -/
def eeNumberOrOpt (a : Option ℚ) (b : ℚ) : Option ℚ :=
  a.map (fun x => eeNumberOr x b)

/-! ## The pipeline -/

/-- The external inputs of the script: the SRTM elevation raster, the CHIRPS
daily rainfall archive, the Sentinel-1 scene archive, the per-pixel area in
m² (`ee.Image.pixelArea()`), and the rasterized AOI polygon of lines 6–12. -/
structure Inputs (n m : ℕ) where
  dem : EEImage n m
  chirps : List (RainItem n m)
  s1Scenes : List (S1Item n m)
  pixelArea : Pix n m → ℚ
  aoi : Pix n m → Bool

namespace Inputs

variable {n m : ℕ}

/-- Line 17: `dem = ee.Image("USGS/SRTMGL1_003").clip(aoi)`. -/
def demOf (inp : Inputs n m) : EEImage n m :=
  inp.dem.clip inp.aoi

/-- Lines 21–26: the clipped accumulated rainfall raster. -/
def rainOf (inp : Inputs n m) : EEImage n m :=
  rainPipeline inp.chirps inp.aoi

/-- Lines 29–36: the clipped Sentinel-1 mosaic (visual reference only). -/
def s1Of (inp : Inputs n m) : EEImage n m :=
  s1Pipeline inp.s1Scenes inp.aoi

/-- Line 39: the heavy-rainfall mask of the pipeline. -/
def heavyRainOf (inp : Inputs n m) : EEImage n m :=
  heavyRain inp.rainOf

/-- Line 43: the flood-risk mask of the pipeline. -/
def floodRiskOf (inp : Inputs n m) : EEImage n m :=
  floodRisk inp.demOf inp.rainOf

/-- Line 46: `pixelAreaKm2 = ee.Image.pixelArea().divide(1e6)`. -/
def pixelAreaKm2 (inp : Inputs n m) : EEImage n m :=
  EEImage.divide (fun p => some (inp.pixelArea p)) 1000000

/-- Lines 47–53: the region reduction
`pixelAreaKm2.updateMask(floodRisk).reduceRegion({sum, aoi, 30, 1e13})`,
a dictionary whose single key is the band name `'area'` of
`ee.Image.pixelArea()`. -/
def floodAreaDict (inp : Inputs n m) : List (String × Option ℚ) :=
  [("area", reduceRegionSum (inp.pixelAreaKm2.updateMask inp.floodRiskOf) inp.aoi)]

/-- GEE `dictionary.get(key)`: null (`none`) when the key is missing or its
value is null. -/
def dictGet (d : List (String × Option ℚ)) (k : String) : Option ℚ :=
  (d.lookup k).getD none

/-- Line 54: `floodArea_km2 = ee.Number(floodArea.get('area')).or(0)`. -/
def floodArea_km2 (inp : Inputs n m) : Option ℚ :=
  eeNumberOrOpt (dictGet inp.floodAreaDict "area") 0

end Inputs

/-! ## Vectorization (`reduceToVectors`, lines 58–64)

`reduceToVectors` with `geometryType: 'polygon'` groups connected regions of
equal-valued unmasked pixels into one polygon feature each.  The script does
not pass `eightConnected`, so GEE's default eight-connectivity applies.  A
feature's geometry is the union of its pixels' footprints — modelled as the
set of grid cells — and the feature carries the region's common value under
the requested `labelProperty`. -/

/-- Eight-connectivity of grid cells: distinct cells whose row and column
indices each differ by at most one. -/
def adj8 {n m : ℕ} (p q : Pix n m) : Prop :=
  p ≠ q ∧ Nat.dist p.1.val q.1.val ≤ 1 ∧ Nat.dist p.2.val q.2.val ≤ 1

instance {n m : ℕ} (p q : Pix n m) : Decidable (adj8 p q) := by
  unfold adj8; infer_instance

/-- The unmasked pixels of an image, as a finite set of grid cells. -/
def support {n m : ℕ} (img : EEImage n m) : Finset (Pix n m) :=
  Finset.univ.filter (fun p => (img p).isSome)

/-- The unmasked pixels of an image, as a subtype (the vertices of the
vectorization graph). -/
abbrev Supp {n m : ℕ} (img : EEImage n m) := {p : Pix n m // (img p).isSome}

/-- The graph `reduceToVectors` contracts: vertices are the unmasked pixels,
and two pixels are adjacent when they are eight-connected and hold the same
value. -/
def vecGraph {n m : ℕ} (img : EEImage n m) : SimpleGraph (Supp img) where
  Adj a b := adj8 a.val b.val ∧ img a.val = img b.val
  symm := by
    rintro a b ⟨⟨hne, h1, h2⟩, hv⟩
    refine ⟨⟨fun h => hne h.symm, ?_, ?_⟩, hv.symm⟩
    · rwa [Nat.dist_comm]
    · rwa [Nat.dist_comm]
  loopless := by
    rintro a ⟨⟨hne, _, _⟩, _⟩
    exact hne rfl

instance {n m : ℕ} (img : EEImage n m) : DecidableRel (vecGraph img).Adj :=
  fun a b => inferInstanceAs (Decidable (adj8 a.val b.val ∧ img a.val = img b.val))

/-- The pixels of the connected region containing the unmasked pixel `v`. -/
def regionOf {n m : ℕ} (img : EEImage n m) (v : Supp img) : Finset (Pix n m) :=
  Finset.univ.filter
    (fun p => if h : (img p).isSome then (vecGraph img).Reachable ⟨p, h⟩ v else False)

/-- Lines 58–64: `floodRisk.selfMask().reduceToVectors({...})` — one feature
per connected region of equal-valued unmasked pixels.  A feature is the pair
of its pixel set and its `(labelProperty, value)` label. -/
def reduceToVectors {n m : ℕ} (img : EEImage n m) (labelProperty : String) :
    Finset (Finset (Pix n m) × String × ℚ) :=
  Finset.univ.image
    (fun v : Supp img => (regionOf img v, labelProperty, (img v.val).getD 0))

/-- The whole flood-risk mask is contiguous: every two unmasked pixels are
joined by a chain of eight-connected, equal-valued unmasked pixels. -/
def Contiguous {n m : ℕ} (img : EEImage n m) : Prop :=
  ∀ a b : Supp img, (vecGraph img).Reachable a b

instance {n m : ℕ} (img : EEImage n m) : Decidable (Contiguous img) := by
  unfold Contiguous; infer_instance

/-! ## Exports (lines 68–94), map layers and the script run -/

/-- A feature of a feature collection: an optional polygon geometry (the
summary feature of line 90 is built on a null geometry) and a property list;
a property value may be null. -/
structure Feature (n m : ℕ) where
  geometry : Option (Finset (Pix n m))
  properties : List (String × Option ℚ)

/-- The polygon features handed to the shapefile export: each vectorized
region becomes a feature whose geometry is the region and whose single
property is its label. -/
def vectorFeatures {n m : ℕ}
    (vecs : Finset (Finset (Pix n m) × String × ℚ)) : Multiset (Feature n m) :=
  vecs.val.map (fun x => ⟨some x.1, [(x.2.1, some x.2.2)]⟩)

/-- One asynchronous export job submitted to the platform, with the
parameters the script passes (`maxPixels: 1e13` of the raster export is a
server-side budget and carried as-is). -/
inductive ExportJob (n m : ℕ) where
  | imageToDrive (image : EEImage n m) (description folder fileNamePrefix : String)
      (scale maxPixels : ℕ)
  | tableToDrive (collection : Multiset (Feature n m))
      (description folder fileNamePrefix fileFormat : String)

/-- One `Map.addLayer` call: the layer's content and display name (the
visualization parameters are presentation-only and not carried). -/
inductive MapLayer (n m : ℕ) where
  | geometry (name : String)
  | image (img : EEImage n m) (name : String)
  | vectors (vecs : Finset (Finset (Pix n m) × String × ℚ)) (name : String)

/-- Everything one run of the script produces: the map layers added for
visualization, the single printed line, the intermediate rasters, the
flood-area scalar, the flood polygons, the three submitted export jobs, and
the legend rows of `addLegendFlood` (lines 97–109). -/
structure RunResult (n m : ℕ) where
  layers : List (MapLayer n m)
  printed : String × Option ℚ
  heavyRain : EEImage n m
  floodRisk : EEImage n m
  floodArea : Option ℚ
  vectors : Finset (Finset (Pix n m) × String × ℚ)
  exports : List (ExportJob n m)
  legendRows : List (String × String)

/-- The whole script, lines 6–110, as a function of its external inputs. -/
def run {n m : ℕ} (inp : Inputs n m) : RunResult n m :=
  let dem := inp.demOf
  let rain := inp.rainOf
  let s1 := inp.s1Of
  let hr := heavyRain rain
  let fr := floodRisk dem rain
  let area := inp.floodArea_km2
  let vecs := reduceToVectors fr.selfMask "flood"
  { layers :=
      [.geometry "AOI: Mahanadi Basin",
       .image dem "DEM",
       .image rain "Total Rainfall July 2022",
       .image s1 "Sentinel-1 VV",
       .image (hr.updateMask hr) "Rainfall > 200mm",
       .image (fr.updateMask fr) "Potential Flood Zones",
       .vectors vecs "Flood-prone Polygons"]
    printed := ("Flood-prone area (km²):", area)
    heavyRain := hr
    floodRisk := fr
    floodArea := area
    vectors := vecs
    exports :=
      [.imageToDrive fr.toByte "MahanadiBasin_FloodRiskRaster" "GEE_Exports"
         "MahanadiBasin_FloodRiskRaster" 30 10000000000000,
       .tableToDrive (vectorFeatures vecs) "MahanadiBasin_FloodRiskPolygons"
         "GEE_Exports" "MahanadiBasin_FloodRiskPolygons" "SHP",
       .tableToDrive {⟨none, [("FloodArea_km2", area)]⟩}
         "MahanadiBasin_FloodAreaSummary" "GEE_Exports"
         "MahanadiBasin_FloodAreaSummary" "CSV"]
    legendRows :=
      [("blue", "Heavy Rainfall (>200mm)"),
       ("red", "Potential Flood-prone (<50m elevation)")] }

/-! ## Concrete single-pixel and two-pixel scenarios

Small fully concrete instantiations of the pipeline, used to evaluate the
embedded script on specific data. -/

/-- A 1×1 elevation raster holding 10 m — below the 50 m threshold. -/
def demFlood : EEImage 1 1 := fun _ => some 10

/-- A 1×1 accumulated-rainfall raster holding 300 mm — above 200 mm. -/
def rainFlood : EEImage 1 1 := fun _ => some 300

/-- A 1×1 elevation raster holding 100 m — above the 50 m threshold. -/
def demDry : EEImage 1 1 := fun _ => some 100

/-- A 1×1 accumulated-rainfall raster holding 10 mm — below 200 mm. -/
def rainDry : EEImage 1 1 := fun _ => some 10

/-- A scenario on a single 900 m² pixel that floods: elevation 10 m and one
in-range CHIRPS day carrying 300 mm. -/
def exFlood : Inputs 1 1 where
  dem := demFlood
  chirps := [⟨"2022-07-15", true, fun _ => some 300⟩]
  s1Scenes := []
  pixelArea := fun _ => 900
  aoi := fun _ => true

/-- The same scenario with a Sentinel-1 IW scene present: only the radar
input differs from `exFlood`. -/
def exRadar : Inputs 1 1 :=
  { exFlood with
    s1Scenes := [⟨"2022-07-10", true, "IW", [("VV", fun _ => some (-10))]⟩] }

/-- A scenario on a single pixel that stays dry: elevation 100 m and 10 mm of
rain, so no pixel satisfies the flood condition. -/
def exDry : Inputs 1 1 where
  dem := demDry
  chirps := [⟨"2022-07-15", true, fun _ => some 10⟩]
  s1Scenes := []
  pixelArea := fun _ => 900
  aoi := fun _ => true

/-- Evaluation: the clipped DEM of the flooding scenario. -/
theorem exFlood_demOf : exFlood.demOf = fun _ => some 10 := by
  funext p
  simp [Inputs.demOf, EEImage.clip, exFlood, demFlood]

/-- Evaluation: the accumulated rainfall of the flooding scenario — the one
in-range day contributes its 300 mm. -/
theorem exFlood_rainOf : exFlood.rainOf = fun _ => some 300 := by
  funext p
  simp +decide [Inputs.rainOf, rainPipeline, collectionSum, EEImage.clip, exFlood]

/-- Evaluation: the single pixel of the flooding scenario is flood-risk. -/
theorem exFlood_floodRisk : exFlood.floodRiskOf = fun _ => some 1 := by
  funext p
  rw [Inputs.floodRiskOf, exFlood_demOf, exFlood_rainOf]
  simp [floodRisk, heavyRain, EEImage.and, EEImage.lt, EEImage.gt]
  norm_num

/-- Evaluation: the region reduction of the flooding scenario sums the one
flooded pixel's 900 m² to 9/10000 km². -/
theorem exFlood_dict : exFlood.floodAreaDict = [("area", some (9/10000))] := by
  rw [Inputs.floodAreaDict, reduceRegionSum]
  rw [exFlood_floodRisk]
  simp [EEImage.updateMask, Inputs.pixelAreaKm2, EEImage.divide, exFlood]
  have h : (Finset.univ : Finset (Pix 1 1)).Nonempty := Finset.univ_nonempty
  exact ⟨h.ne_empty, by norm_num⟩

/-- Evaluation: line 54 turns the 9/10000 km² sum into `1` — the logical OR
of a non-zero number with `0`. -/
theorem exFlood_area : exFlood.floodArea_km2 = some 1 := by
  rw [Inputs.floodArea_km2, exFlood_dict]
  simp [Inputs.dictGet, eeNumberOrOpt, eeNumberOr]

/-- Evaluation: the dry scenario's pixel is not flood-risk. -/
theorem exDry_floodRisk : exDry.floodRiskOf = fun _ => some 0 := by
  funext p
  simp +decide [Inputs.floodRiskOf, Inputs.demOf, Inputs.rainOf, rainPipeline,
    collectionSum, EEImage.clip, exDry, demDry, floodRisk, heavyRain,
    EEImage.and, EEImage.lt, EEImage.gt]

/-- Evaluation: with no flood-risk pixel the region reduction receives no
unmasked pixel, so the dictionary entry is null. -/
theorem exDry_dict : exDry.floodAreaDict = [("area", none)] := by
  rw [Inputs.floodAreaDict, reduceRegionSum]
  rw [exDry_floodRisk]
  simp [EEImage.updateMask]

/-- Evaluation: on the dry scenario line 54 produces no number at all —
`Number.or` has a null left operand. -/
theorem exDry_area : exDry.floodArea_km2 = none := by
  rw [Inputs.floodArea_km2, exDry_dict]
  simp [Inputs.dictGet, eeNumberOrOpt]

/-! ## The flood-area scalar as the specification words it -/

/-- Modelled from the spec: "the sum, in square kilometers, of the per-pixel
areas over exactly those pixels where the flood-risk mask is true" — the
value the specification says the pipeline reports (for comparison with the
script's `floodArea_km2`). -/
def specFloodAreaKm2 {n m : ℕ} (inp : Inputs n m) : ℚ :=
  ∑ p ∈ Finset.univ.filter (fun p : Pix n m => inp.floodRiskOf p = some 1),
    inp.pixelArea p / 1000000

/-- Evaluation: the spec-side flood area of the flooding scenario is the
single pixel's 900 m², i.e. 9/10000 km². -/
theorem exFlood_specArea : specFloodAreaKm2 exFlood = 9 / 10000 := by
  unfold specFloodAreaKm2
  rw [exFlood_floodRisk]
  simp [exFlood]
  norm_num

/-! ## Claims -/

/-- A constant 1×1 test raster. -/
def constImg (v : ℚ) : EEImage 1 1 := fun _ => some v

/-- The unique pixel of the 1×1 grid. -/
def pix00 : Pix 1 1 := (0, 0)

/-- Claim C1: at every pixel carrying elevation `e` and accumulated
rainfall `r`, the flood-risk mask is true (`1`) iff `e < 50 ∧ r > 200`, and
false (`0`) otherwise. -/
theorem flood_risk_pointwise {n m : ℕ} (dem rain : EEImage n m)
    (p : Pix n m) (e r : ℚ) (he : dem p = some e) (hr : rain p = some r) :
    (floodRisk dem rain p = some 1 ↔ (e < 50 ∧ 200 < r)) ∧
    (floodRisk dem rain p = some 0 ↔ ¬(e < 50 ∧ 200 < r)) := by
  constructor
  · exact floodRisk_eq_one_iff dem rain p e r he hr
  · unfold floodRisk heavyRain EEImage.and EEImage.lt EEImage.gt
    by_cases h1 : e < 50 <;> by_cases h2 : 200 < r <;>
      simp [he, hr, h1, h2]

/-- Witness for C1: the four quadrants around the thresholds —
`e=49,r=201 ↦ true`; `e=50,r=201`, `e=49,r=200`, `e=51,r=199 ↦ false`. -/
theorem flood_risk_pointwise_witness :
    floodRisk (constImg 49) (constImg 201) pix00 = some 1 ∧
    floodRisk (constImg 50) (constImg 201) pix00 = some 0 ∧
    floodRisk (constImg 49) (constImg 200) pix00 = some 0 ∧
    floodRisk (constImg 51) (constImg 199) pix00 = some 0 :=
  ⟨(flood_risk_pointwise (constImg 49) (constImg 201) pix00 49 201 rfl rfl).1.mpr
      (by norm_num),
   (flood_risk_pointwise (constImg 50) (constImg 201) pix00 50 201 rfl rfl).2.mpr
      (by norm_num),
   (flood_risk_pointwise (constImg 49) (constImg 200) pix00 49 200 rfl rfl).2.mpr
      (by norm_num),
   (flood_risk_pointwise (constImg 51) (constImg 199) pix00 51 199 rfl rfl).2.mpr
      (by norm_num)⟩

/-- Claim C4: the heavy-rainfall mask is a monotone threshold in the
accumulated rainfall — true (`1`) for every `r > 200` and false (`0`) for
every `r ≤ 200`. -/
theorem heavy_rain_threshold {n m : ℕ} (rain : EEImage n m) (p : Pix n m)
    (r : ℚ) (h : rain p = some r) :
    (200 < r → heavyRain rain p = some 1) ∧
    (r ≤ 200 → heavyRain rain p = some 0) := by
  constructor
  · intro hgt
    simp [heavyRain, EEImage.gt, h, hgt]
  · intro hle
    simp [heavyRain, EEImage.gt, h, not_lt.mpr hle]

/-- Witness for C4 at `r = 300 > 200` and `r = 100 ≤ 200`. -/
theorem heavy_rain_threshold_witness :
    heavyRain (constImg 300) pix00 = some 1 ∧
    heavyRain (constImg 100) pix00 = some 0 :=
  ⟨(heavy_rain_threshold (constImg 300) pix00 300 rfl).1 (by norm_num),
   (heavy_rain_threshold (constImg 100) pix00 100 rfl).2 (by norm_num)⟩

/-- Claim C9: the flood-risk mask is binary — every unmasked pixel holds `0`
or `1` — so the byte cast of line 69 (`floodRisk.toByte()`) changes no pixel. -/
theorem flood_risk_binary {n m : ℕ} (dem rain : EEImage n m) (p : Pix n m) :
    (floodRisk dem rain).toByte p = floodRisk dem rain p ∧
    ∀ v, floodRisk dem rain p = some v → v = 0 ∨ v = 1 := by
  constructor
  · unfold EEImage.toByte
    rcases h : floodRisk dem rain p with _ | v
    · rfl
    · rcases floodRisk_val_cases dem rain p v h with h0 | h1
      · subst h0
        simp [EEImage.toByteVal]
      · subst h1
        norm_num [EEImage.toByteVal]
  · exact floodRisk_val_cases dem rain p

/-- Witness for C9 on the flooding single-pixel rasters, where the mask
holds `1`. -/
theorem flood_risk_binary_witness :
    (floodRisk demFlood rainFlood).toByte pix00 = floodRisk demFlood rainFlood pix00 ∧
    ((1 : ℚ) = 0 ∨ (1 : ℚ) = 1) :=
  ⟨(flood_risk_binary demFlood rainFlood pix00).1,
   (flood_risk_binary demFlood rainFlood pix00).2 1 (by decide)⟩

/-- Claim C2 fails on the code: on a scenario whose flood-risk pixels cover
9/10000 km², the script's reported scalar (line 54, printed and exported) is
`1`, not the 9/10000 km² sum the spec states — `ee.Number.or` is a logical
OR, not a default.  The evaluation shows the divergence. -/
theorem flood_area_reported_is_or_not_sum :
    exFlood.floodArea_km2 = some 1 ∧
    (run exFlood).printed = ("Flood-prone area (km²):", some 1) ∧
    specFloodAreaKm2 exFlood = 9 / 10000 ∧
    ((9 : ℚ) / 10000 ≠ 1) := by
  refine ⟨exFlood_area, ?_, exFlood_specArea, by norm_num⟩
  show ((("Flood-prone area (km²):" : String), exFlood.floodArea_km2)) = _
  rw [exFlood_area]

/-- Claim C3 fails on the code: when the region reduction yields a null
dictionary entry (no qualifying pixel), line 54 does not default the scalar
to zero — `Number.or` with a null left operand produces no number at all,
so there is no value (in particular not `some 0`). -/
theorem flood_area_missing_not_defaulted :
    exDry.floodAreaDict = [("area", none)] ∧
    exDry.floodArea_km2 = none ∧
    exDry.floodArea_km2 ≠ some 0 := by
  refine ⟨exDry_dict, exDry_area, ?_⟩
  rw [exDry_area]
  simp

/-- Claim C6: the Sentinel-1 radar input feeds only the map layer — two runs
that agree on the elevation, rainfall, pixel-area and AOI inputs but differ
arbitrarily in the radar scenes produce the same flood-risk mask, flood-area
scalar, flood polygons and export jobs. -/
theorem radar_not_in_decision_logic {n m : ℕ} (i j : Inputs n m)
    (hdem : i.dem = j.dem) (hch : i.chirps = j.chirps)
    (hpa : i.pixelArea = j.pixelArea) (haoi : i.aoi = j.aoi) :
    (run i).floodRisk = (run j).floodRisk ∧
    (run i).floodArea = (run j).floodArea ∧
    (run i).vectors = (run j).vectors := by
  obtain ⟨d₁, c₁, s₁, a₁, b₁⟩ := i
  obtain ⟨d₂, c₂, s₂, a₂, b₂⟩ := j
  dsimp only at hdem hch hpa haoi
  subst hdem
  subst hch
  subst hpa
  subst haoi
  exact ⟨rfl, rfl, rfl⟩

/-- Witness for C6: the flooding scenario with no radar scene versus the
same scenario with one IW scene. -/
theorem radar_not_in_decision_logic_witness :
    (run exFlood).floodRisk = (run exRadar).floodRisk ∧
    (run exFlood).floodArea = (run exRadar).floodArea ∧
    (run exFlood).vectors = (run exRadar).vectors :=
  radar_not_in_decision_logic exFlood exRadar rfl rfl rfl rfl

/-- Claim C7: the pipeline is a deterministic function of its inputs — two
runs on equal inputs produce equal heavy-rainfall masks, flood-risk masks
and flood-area scalars. -/
theorem pipeline_deterministic {n m : ℕ} (i j : Inputs n m) (h : i = j) :
    (run i).heavyRain = (run j).heavyRain ∧
    (run i).floodRisk = (run j).floodRisk ∧
    (run i).floodArea = (run j).floodArea := by
  subst h
  exact ⟨rfl, rfl, rfl⟩

/-- Witness for C7 on the flooding scenario. -/
theorem pipeline_deterministic_witness :
    (run exFlood).heavyRain = (run exFlood).heavyRain ∧
    (run exFlood).floodRisk = (run exFlood).floodRisk ∧
    (run exFlood).floodArea = (run exFlood).floodArea :=
  pipeline_deterministic exFlood exFlood rfl

/-- Helper: a pixel survives `selfMask` exactly when the image holds a
non-zero value there. -/
theorem selfMask_eq_some_iff {n m : ℕ} {img : EEImage n m} {p : Pix n m}
    {v : ℚ} : img.selfMask p = some v ↔ img p = some v ∧ v ≠ 0 := by
  unfold EEImage.selfMask EEImage.updateMask
  rcases h : img p with _ | w
  · simp
  · by_cases hw : w = 0
    · subst hw
      simp
      exact fun hv => hv.symm
    · simp only [h, ne_eq, hw, not_false_iff, if_true, Option.some.injEq]
      exact ⟨fun hv => ⟨hv, hv ▸ hw⟩, fun hv => hv.1⟩

/-- Helper: a pixel of the self-masked flood-risk raster always holds `1`,
and the underlying flood-risk mask is `1` there. -/
theorem selfMask_floodRisk_eq_one {n m : ℕ} {dem rain : EEImage n m}
    {p : Pix n m} {v : ℚ} (h : (floodRisk dem rain).selfMask p = some v) :
    v = 1 ∧ floodRisk dem rain p = some 1 := by
  obtain ⟨hf, hv⟩ := selfMask_eq_some_iff.mp h
  rcases floodRisk_val_cases dem rain p v hf with h0 | h1
  · exact absurd h0 hv
  · subst h1
    exact ⟨rfl, hf⟩

/-- Helper: vectorizing a raster with no unmasked pixel yields no feature. -/
theorem reduceToVectors_of_support_empty {n m : ℕ} {img : EEImage n m}
    (h : support img = ∅) (lbl : String) : reduceToVectors img lbl = ∅ := by
  have he : (Finset.univ : Finset (Supp img)) = ∅ := by
    rw [Finset.univ_eq_empty_iff]
    refine ⟨fun v => ?_⟩
    have hv : v.val ∈ support img := by
      simp [support, v.property]
    rw [h] at hv
    exact absurd hv (Finset.not_mem_empty _)
  unfold reduceToVectors
  rw [he, Finset.image_empty]

/-- Helper: when the whole unmasked raster is one contiguous region, the
region of every unmasked pixel is the entire support. -/
theorem regionOf_eq_support {n m : ℕ} {img : EEImage n m}
    (hc : Contiguous img) (v : Supp img) : regionOf img v = support img := by
  ext p
  simp only [regionOf, support, Finset.mem_filter, Finset.mem_univ, true_and]
  constructor
  · intro hp
    by_cases h : (img p).isSome
    · exact h
    · rw [dif_neg h] at hp
      exact hp.elim
  · intro h
    rw [dif_pos h]
    exact hc ⟨p, h⟩ v

/-- Helper: the label value carried by a vertex of the self-masked
flood-risk raster is `1`. -/
theorem selfMask_floodRisk_label {n m : ℕ} (dem rain : EEImage n m)
    (v : Supp (floodRisk dem rain).selfMask) :
    ((floodRisk dem rain).selfMask v.val).getD 0 = 1 := by
  obtain ⟨w, hw⟩ := Option.isSome_iff_exists.mp v.property
  rw [hw, Option.getD_some]
  exact (selfMask_floodRisk_eq_one hw).1

/-- Claim C5: vectorization of the self-masked flood-risk raster yields no
feature when the mask has no true pixel, and exactly one polygon — covering
the whole true region — when the true pixels form one contiguous
(eight-connected) region. -/
theorem flood_vectors_count {n m : ℕ} (dem rain : EEImage n m) :
    (support (floodRisk dem rain).selfMask = ∅ →
      reduceToVectors (floodRisk dem rain).selfMask "flood" = ∅) ∧
    ((support (floodRisk dem rain).selfMask).Nonempty →
      Contiguous (floodRisk dem rain).selfMask →
      reduceToVectors (floodRisk dem rain).selfMask "flood" =
        {(support (floodRisk dem rain).selfMask, "flood", 1)}) := by
  constructor
  · intro h
    exact reduceToVectors_of_support_empty h _
  · intro hne hc
    have huniv :
        (Finset.univ : Finset (Supp (floodRisk dem rain).selfMask)).Nonempty := by
      obtain ⟨p, hp⟩ := hne
      have hs : ((floodRisk dem rain).selfMask p).isSome = true := by
        simpa [support] using hp
      exact ⟨⟨p, hs⟩, Finset.mem_univ _⟩
    have himg :
        reduceToVectors (floodRisk dem rain).selfMask "flood" =
          Finset.univ.image
            (fun _ : Supp (floodRisk dem rain).selfMask =>
              (support (floodRisk dem rain).selfMask, "flood", (1 : ℚ))) := by
      unfold reduceToVectors
      refine Finset.image_congr (fun v _ => ?_)
      rw [regionOf_eq_support hc v, selfMask_floodRisk_label dem rain v]
    rw [himg, Finset.image_const huniv]

/-- Witness for C5: on the 1×1 grid, the dry rasters give an empty feature
collection and the flooding rasters give exactly the one polygon covering
the single true pixel. -/
theorem flood_vectors_count_witness :
    reduceToVectors (floodRisk demDry rainDry).selfMask "flood" = ∅ ∧
    reduceToVectors (floodRisk demFlood rainFlood).selfMask "flood" =
      {(support (floodRisk demFlood rainFlood).selfMask, "flood", 1)} :=
  ⟨(flood_vectors_count demDry rainDry).1 (by decide),
   (flood_vectors_count demFlood rainFlood).2 (by decide) (by decide)⟩

/-- Claim C10: every feature produced by line 58's
`floodRisk.selfMask().reduceToVectors({labelProperty: 'flood', ...})`
carries the label property `'flood'` with value `1`, and every pixel of its
polygon is a value-1 pixel of the flood-risk mask. -/
theorem flood_vectors_labels {n m : ℕ} (dem rain : EEImage n m)
    (f : Finset (Pix n m) × String × ℚ)
    (hf : f ∈ reduceToVectors (floodRisk dem rain).selfMask "flood") :
    f.2.1 = "flood" ∧ f.2.2 = 1 ∧
    ∀ p ∈ f.1, floodRisk dem rain p = some 1 := by
  unfold reduceToVectors at hf
  obtain ⟨v, -, hv⟩ := Finset.mem_image.mp hf
  subst hv
  refine ⟨rfl, selfMask_floodRisk_label dem rain v, ?_⟩
  intro p hp
  simp only [regionOf, Finset.mem_filter, Finset.mem_univ, true_and] at hp
  by_cases h : ((floodRisk dem rain).selfMask p).isSome
  · obtain ⟨w, hw⟩ := Option.isSome_iff_exists.mp h
    exact (selfMask_floodRisk_eq_one hw).2
  · rw [dif_neg h] at hp
    exact hp.elim

/-- Witness for C10: the one feature vectorized from the flooding 1×1
rasters carries `('flood', 1)` and covers only value-1 pixels. -/
theorem flood_vectors_labels_witness :
    ((({pix00} : Finset (Pix 1 1)), ("flood", (1 : ℚ))).2.1 = "flood") ∧
    ((({pix00} : Finset (Pix 1 1)), ("flood", (1 : ℚ))).2.2 = 1) ∧
    ∀ p ∈ (({pix00} : Finset (Pix 1 1)), ("flood", (1 : ℚ))).1,
      floodRisk demFlood rainFlood p = some 1 :=
  flood_vectors_labels demFlood rainFlood _ (by decide)

/-- Claim C8 and its failure point: the script submits exactly three export
jobs — the byte-cast flood-risk raster, the SHP polygons, and a summary CSV
whose collection is exactly one feature with exactly one column
`'FloodArea_km2'` — but on the flooding scenario the exported value is `1`
(the `Number.or` result), not the computed 9/10000 km² flood area. -/
theorem exports_shape_and_summary_value :
    (run exFlood).exports =
      [ExportJob.imageToDrive ((run exFlood).floodRisk.toByte)
         "MahanadiBasin_FloodRiskRaster" "GEE_Exports"
         "MahanadiBasin_FloodRiskRaster" 30 10000000000000,
       ExportJob.tableToDrive (vectorFeatures (run exFlood).vectors)
         "MahanadiBasin_FloodRiskPolygons" "GEE_Exports"
         "MahanadiBasin_FloodRiskPolygons" "SHP",
       ExportJob.tableToDrive {⟨none, [("FloodArea_km2", some 1)]⟩}
         "MahanadiBasin_FloodAreaSummary" "GEE_Exports"
         "MahanadiBasin_FloodAreaSummary" "CSV"] ∧
    specFloodAreaKm2 exFlood ≠ 1 := by
  constructor
  · rw [← exFlood_area]
    rfl
  · rw [exFlood_specArea]
    norm_num
